import Mathlib

/-!
Shallow embedding of the `unifi` Go package (a client SDK for the UniFi
network-controller REST API) and proofs about its specification.

The embedding models:
  * the command-envelope construction of `AuthorizeGuestWithQos`,
  * the response-envelope parser `ParseJSON` (on top of an executable model
    of `json.Unmarshal` for the JSON grammar the claims exercise: objects,
    arrays, strings with simple escapes, integers, booleans, null),
  * the constructor `New` (on top of an executable model of `url.Parse`
    and `URL.ResolveReference` covering URLs without query/fragment
    components or percent-escapes, which is the shape the package uses),
  * the session operations `Login`, `Logout`, `AuthorizeGuestWithQos` and
    `AuthorizeGuest` as functions from a transport outcome to the request
    sent, the updated session and the returned error,
  * the process-wide debug flag (`SetDebugMode` / `IsDebugMode`) as explicit
    global state threaded through `New`.

Machine integers are modelled as `Int` (the claims never exercise overflow)
and Go maps as association lists where a later binding for a key overrides
an earlier one, exactly as repeated inserts into a Go map would.
-/

/-- Boolean prefix test on character lists, used by the `strings.Replace`
and `strings.HasPrefix` models. -/
def isPre (p s : List Char) : Bool :=
  match p, s with
  | [], _ => true
  | x :: xs, y :: ys => x = y && isPre xs ys
  | _ :: _, [] => false

/-- Fuel-based model of Go `strings.Replace(s, pat, rep, -1)` for a nonempty
pattern: scan left to right, replace every non-overlapping occurrence.
Fuel at least `s.length` makes the fuel bound irrelevant: every step
consumes at least one character of `s`. -/
def replaceAllF (pat rep : List Char) : Nat → List Char → List Char
  | 0, s => s
  | n + 1, s =>
    match s with
    | [] => []
    | c :: rest =>
      if !pat.isEmpty && isPre pat (c :: rest) then
        rep ++ replaceAllF pat rep n ((c :: rest).drop pat.length)
      else
        c :: replaceAllF pat rep n rest

/-- Model of Go `strings.Replace(s, pat, rep, -1)` on `String`. -/
def goReplace (s pat rep : String) : String :=
  ⟨replaceAllF pat.data rep.data s.data.length s.data⟩

/-- Splits a path into its `/`-separated segments (accumulator holds the
current segment reversed). -/
def splitSegAux (cur : List Char) : List Char → List String
  | [] => [⟨cur.reverse⟩]
  | c :: rest => if c = '/' then ⟨cur.reverse⟩ :: splitSegAux [] rest else splitSegAux (c :: cur) rest

/-- Literal path segments of a URL path. -/
def pathSegments (s : String) : List String := splitSegAux [] s.data

/-- Model of Go `net/url.URL` restricted to the components the package
uses: scheme, authority (host) and path. -/
structure GoURL where
  scheme : String
  host : String
  path : String
deriving DecidableEq

/-- Scheme scanner of Go `url.Parse`: accepts `alpha (alnum|+|-|.)* ':'`,
reports `missing protocol scheme` for a leading `:`, and treats everything
else as a scheme-less URL. `orig` is the whole input, returned untouched
when no scheme is found. -/
def getSchemeChars (orig : List Char) : Nat → List Char → Except String (List Char × List Char)
  | _, [] => Except.ok ([], orig)
  | i, c :: rest =>
    if c.isAlpha then getSchemeChars orig (i + 1) rest
    else if c.isDigit || c = '+' || c = '-' || c = '.' then
      (if i = 0 then Except.ok ([], orig) else getSchemeChars orig (i + 1) rest)
    else if c = ':' then
      (if i = 0 then Except.error ("missing protocol scheme")
       else Except.ok ((orig.take i).map Char.toLower, rest))
    else Except.ok ([], orig)

/-- Model of Go `url.Parse` for URLs without query/fragment components or
percent-escapes: rejects control characters and a leading colon, splits off
the scheme, and takes a `//`-led authority up to the next delimiter. -/
def goURLParse (s : String) : Except String GoURL :=
  let cs := s.data
  if cs.any (fun c => c.toNat < 32 || c.toNat = 127) then
    Except.error ("net/url: invalid control character in URL")
  else
    match getSchemeChars cs 0 cs with
    | Except.error e => Except.error e
    | Except.ok (scheme, rest) =>
      if isPre ['/', '/'] rest then
        let afterAuth := rest.drop 2
        let host := afterAuth.takeWhile (fun c => !(c = '/' || c = '?' || c = '#'))
        let path := afterAuth.dropWhile (fun c => !(c = '/' || c = '?' || c = '#'))
        Except.ok { scheme := ⟨scheme⟩, host := ⟨host⟩, path := ⟨path⟩ }
      else Except.ok { scheme := ⟨scheme⟩, host := "", path := ⟨rest⟩ }

/-- Error-dropping parse, modelling `refURL, _ := url.Parse(v)` which
ignores the error result. -/
def goURLParseD (s : String) : GoURL :=
  match goURLParse s with
  | Except.ok u => u
  | Except.error _ => { scheme := "", host := "", path := "" }

/-- Path merge of RFC 3986 §5.3 as implemented by Go `resolvePath`:
directory of the base path followed by the relative path. -/
def mergePath (bp rp : String) : String :=
  ⟨(bp.data.reverse.dropWhile (fun c => !(c = '/'))).reverse ++ rp.data⟩

/-- Model of Go `URL.ResolveReference` (without dot-segment removal, which
the package's reference paths never need). -/
def resolveReference (base ref : GoURL) : GoURL :=
  if ref.scheme ≠ "" then ref
  else if ref.host ≠ "" then { ref with scheme := base.scheme }
  else if ref.path = "" then { scheme := base.scheme, host := base.host, path := base.path }
  else if isPre ['/'] ref.path.data then { scheme := base.scheme, host := base.host, path := ref.path }
  else { scheme := base.scheme, host := base.host, path := mergePath base.path ref.path }

/-- Generic JSON values as produced by decoding into
`map[string]interface{}`: object members are kept in source order. -/
inductive Json where
  | null : Json
  | bool (b : Bool) : Json
  | num (n : Int) : Json
  | str (s : String) : Json
  | arr (elems : List Json) : Json
  | obj (members : List (String × Json)) : Json

/-- Lookup in a Go map built from an association list: a later binding for
the same key overrides an earlier one. -/
def goMapGet {α : Type} (ms : List (String × α)) (k : String) : Option α :=
  ms.foldl (fun acc kv => if kv.1 = k then some kv.2 else acc) none

/-- JSON insignificant whitespace. -/
def skipWs (s : List Char) : List Char :=
  s.dropWhile (fun c => c = ' ' || c = '\t' || c = '\n' || c = '\r')

/-- Single-character JSON escapes. -/
def escChar (c : Char) : Option Char :=
  if c = '"' ∨ c = '\\' ∨ c = '/' then some c
  else if c = 'n' then some '\n'
  else if c = 't' then some '\t'
  else if c = 'r' then some '\r'
  else if c = 'b' then some (Char.ofNat 8)
  else if c = 'f' then some (Char.ofNat 12)
  else none

/-- Parses the remainder of a JSON string literal, after the opening quote. -/
def parseStrRest : List Char → Option (String × List Char)
  | [] => none
  | '"' :: r => some ("", r)
  | '\\' :: c :: r =>
    match escChar c with
    | none => none
    | some e =>
      match parseStrRest r with
      | none => none
      | some (s, r2) => some (⟨e :: s.data⟩, r2)
  | c :: r =>
    match parseStrRest r with
    | none => none
    | some (s, r2) => some (⟨c :: s.data⟩, r2)

/-- Parses a JSON integer literal (optional minus sign, digit run). -/
def parseNum (s : List Char) : Option (Json × List Char) :=
  match s with
  | '-' :: r =>
    (let ds := r.takeWhile Char.isDigit
     if ds.isEmpty then none
     else some (Json.num (-(Int.ofNat (ds.foldl (fun a c => a * 10 + (c.toNat - 48)) 0))), r.drop ds.length))
  | _ =>
    (let ds := s.takeWhile Char.isDigit
     if ds.isEmpty then none
     else some (Json.num (Int.ofNat (ds.foldl (fun a c => a * 10 + (c.toNat - 48)) 0)), s.drop ds.length))

/-- Mode of the combined fuel-based JSON parser: a single value, the
elements of an array after `[`, or the members of an object after `{`. -/
inductive PMode where
  | val : PMode
  | elems : PMode
  | members : PMode

/-- Intermediate results of the combined JSON parser. -/
inductive PRes where
  | v (j : Json) : PRes
  | vs (js : List Json) : PRes
  | ms (kvs : List (String × Json)) : PRes

/-- Fuel-based recursive-descent JSON parser; structural recursion on the
fuel keeps it kernel-evaluable. -/
def parseF : Nat → PMode → List Char → Option (PRes × List Char)
  | 0, _, _ => none
  | n + 1, PMode.val, s =>
    (match skipWs s with
     | [] => none
     | c :: r =>
       if c = 'n' && isPre ['u', 'l', 'l'] r then some (PRes.v Json.null, r.drop 3)
       else if c = 't' && isPre ['r', 'u', 'e'] r then some (PRes.v (Json.bool true), r.drop 3)
       else if c = 'f' && isPre ['a', 'l', 's', 'e'] r then some (PRes.v (Json.bool false), r.drop 4)
       else if c = '"' then
         (match parseStrRest r with
          | some (str, r2) => some (PRes.v (Json.str str), r2)
          | none => none)
       else if c = '[' then
         (match skipWs r with
          | ']' :: r2 => some (PRes.v (Json.arr []), r2)
          | r2 =>
            match parseF n PMode.elems r2 with
            | some (PRes.vs js, r3) => some (PRes.v (Json.arr js), r3)
            | _ => none)
       else if c = '{' then
         (match skipWs r with
          | '}' :: r2 => some (PRes.v (Json.obj []), r2)
          | r2 =>
            match parseF n PMode.members r2 with
            | some (PRes.ms kvs, r3) => some (PRes.v (Json.obj kvs), r3)
            | _ => none)
       else if c = '-' || c.isDigit then
         (match parseNum (c :: r) with
          | some (j, r2) => some (PRes.v j, r2)
          | none => none)
       else none)
  | n + 1, PMode.elems, s =>
    (match parseF n PMode.val s with
     | some (PRes.v j, r) =>
       (match skipWs r with
        | ',' :: r2 =>
          (match parseF n PMode.elems r2 with
           | some (PRes.vs js, r3) => some (PRes.vs (j :: js), r3)
           | _ => none)
        | ']' :: r2 => some (PRes.vs [j], r2)
        | _ => none)
     | _ => none)
  | n + 1, PMode.members, s =>
    (match skipWs s with
     | '"' :: r =>
       (match parseStrRest r with
        | some (k, r1) =>
          (match skipWs r1 with
           | ':' :: r2 =>
             (match parseF n PMode.val r2 with
              | some (PRes.v v, r3) =>
                (match skipWs r3 with
                 | ',' :: r4 =>
                   (match parseF n PMode.members r4 with
                    | some (PRes.ms kvs, r5) => some (PRes.ms ((k, v) :: kvs), r5)
                    | _ => none)
                 | '}' :: r4 => some (PRes.ms [(k, v)], r4)
                 | _ => none)
              | _ => none)
           | _ => none)
        | none => none)
     | _ => none)

/-- Decodes a byte string into a JSON value, insisting (like
`json.Unmarshal`) that nothing but whitespace follows the value. -/
def jsonDecode (s : String) : Option Json :=
  match parseF (2 * s.data.length + 2) PMode.val s.data with
  | some (PRes.v j, rest) => if skipWs rest = [] then some j else none
  | _ => none

/-- Model of `json.Unmarshal(b, &m)` for `m : map[string]interface{}`:
succeeds exactly when the input decodes to a JSON object. -/
def jsonDecodeToMap (s : String) : Option (List (String × Json)) :=
  match jsonDecode s with
  | some (Json.obj ms) => some ms
  | _ => none

/-- Errors of `ParseJSON`: the `json.Unmarshal` failure branch and the
three schema-check branches. -/
inductive ParseJSONError where
  | decodeError : ParseJSONError
  | metaMissing : ParseJSONError
  | metaNotObject : ParseJSONError
  | rcNotString : ParseJSONError
deriving DecidableEq

/-- Distinguishes the schema-violation errors (spec: `SchemaError`) from
the decode failure (spec: `DecodeError`). -/
def ParseJSONError.isSchemaError : ParseJSONError → Bool
  | ParseJSONError.decodeError => false
  | _ => true

/-- Holds when a decoded map violates the response-envelope schema: `meta`
absent, `meta` not an object, or `meta.rc` absent or not a string. -/
def schemaBad (ms : List (String × Json)) : Bool :=
  match goMapGet ms ("meta") with
  | none => true
  | some (Json.obj mms) =>
    (match goMapGet mms ("rc") with
     | some (Json.str _) => false
     | _ => true)
  | some _ => true

/-- Model of `ParseJSON`: decode into a generic map, check `meta` exists,
is an object, and carries a string `rc`; report `rc == "ok"`. -/
def ParseJSON (b : String) : List (String × Json) × Bool × Option ParseJSONError :=
  match jsonDecodeToMap b with
  | none => ([], false, some ParseJSONError.decodeError)
  | some ms =>
    match goMapGet ms ("meta") with
    | none => (ms, false, some ParseJSONError.metaMissing)
    | some (Json.obj mms) =>
      (match goMapGet mms ("rc") with
       | some (Json.str rc) => (ms, decide (rc = ("ok")), none)
       | _ => (ms, false, some ParseJSONError.rcNotString))
    | some _ => (ms, false, some ParseJSONError.metaNotObject)

/-- Process-wide mutable state of the package: the debug flag. -/
structure GlobalState where
  debugMode : Bool
deriving DecidableEq

/-- Model of `SetDebugMode`. -/
def SetDebugMode (f : Bool) (_ : GlobalState) : GlobalState := { debugMode := f }

/-- Model of `IsDebugMode`. -/
def IsDebugMode (g : GlobalState) : Bool := g.debugMode

/-- An HTTP cookie as far as the package observes it. -/
structure Cookie where
  name : String
  value : String
deriving DecidableEq

/-- The cookie jar, modelled as the log of `SetCookies` calls (most recent
first). -/
abbrev Jar := List (GoURL × List Cookie)

/-- Model of `cookiejar.Jar.SetCookies`. -/
def Jar.setCookies (j : Jar) (u : GoURL) (cs : List Cookie) : Jar := (u, cs) :: j

/-- Error of the constructor: the base address failed to parse. -/
inductive NewError where
  | addressError (msg : String) : NewError
deriving DecidableEq

/-- The session handle (`Unifi` struct). -/
structure Unifi where
  site : String
  userName : String
  password : String
  baseURL : GoURL
  urls : List (String × GoURL)
  jar : Jar
deriving DecidableEq

/-- Default site name. -/
def defaultSite : String := "default"

/-- Raw endpoint path templates (`rawURLs`). -/
def rawURLs : List (String × String) :=
  [(("login"), ("/api/login")), (("logout"), ("/api/logout")), (("stamgr"), ("/api/s/$site/cmd/stamgr"))]

/-- Model of the constructor `New`: default the site, parse the base
address (`AddressError` on failure), resolve the endpoint templates with
`$site` substituted, start with an empty cookie jar, and clear the
process-wide debug flag. -/
def New (site unifiURL userName password : String) (g : GlobalState) :
    Except NewError Unifi × GlobalState :=
  let s := if site = "" then defaultSite else site
  match goURLParse unifiURL with
  | Except.error e =>
    (Except.error (NewError.addressError (("Parse Unifi URL error: ") ++ e)), g)
  | Except.ok base =>
    let urls := rawURLs.map (fun kv => (kv.1, resolveReference base (goURLParseD (goReplace kv.2 ("$site") s))))
    (Except.ok { site := s, userName := userName, password := password, baseURL := base,
                 urls := urls, jar := [] },
     { debugMode := false })

/-- Endpoint lookup `u.urls[k]`. -/
def Unifi.getURL (u : Unifi) (k : String) : GoURL :=
  (goMapGet u.urls k).getD { scheme := "", host := "", path := "" }

/-- An HTTP response as far as the package observes it. -/
structure HttpResponse where
  statusCode : Nat
  cookies : List Cookie
  body : String
deriving DecidableEq

/-- Body of an outgoing request: empty, or a JSON object of string pairs. -/
inductive ReqBody where
  | empty : ReqBody
  | jsonObj (kvs : List (String × String)) : ReqBody
deriving DecidableEq

/-- An outgoing HTTP request as the package builds it. -/
structure HttpRequest where
  method : String
  url : GoURL
  body : ReqBody
  headers : List (String × String)
deriving DecidableEq

/-- Outcome of the HTTP transport for one request. -/
inductive TransportResult where
  | failure (msg : String) : TransportResult
  | success (resp : HttpResponse) : TransportResult
deriving DecidableEq

/-- Errors returned by the session operations. -/
inductive OpError where
  | transportError (msg : String) : OpError
  | statusError (code : Nat) : OpError
deriving DecidableEq

/-- Observable behaviour of one session operation: the request it sends,
the session state afterwards, and the error it returns. -/
structure OpResult where
  request : HttpRequest
  session : Unifi
  error : Option OpError
deriving DecidableEq

/-- Model of `Login`: POST the credentials to the login endpoint; on a
non-200 status fail with the status code; on 200 store the response
cookies against the base address. -/
def Unifi.Login (u : Unifi) (t : TransportResult) : OpResult :=
  let req : HttpRequest :=
    { method := ("POST"), url := u.getURL ("login"),
      body := ReqBody.jsonObj [(("username"), u.userName), (("password"), u.password)],
      headers := [(("Accept"), ("*/*")), (("Content-Type"), ("application/json"))] }
  match t with
  | TransportResult.failure msg =>
    { request := req, session := u, error := some (OpError.transportError msg) }
  | TransportResult.success resp =>
    if resp.statusCode ≠ 200 then
      { request := req, session := u, error := some (OpError.statusError resp.statusCode) }
    else
      { request := req, session := { u with jar := u.jar.setCookies u.baseURL resp.cookies },
        error := none }

/-- Model of `Logout`: POST (no body) to the logout endpoint; same status
contract and cookie capture as `Login`. -/
def Unifi.Logout (u : Unifi) (t : TransportResult) : OpResult :=
  let req : HttpRequest :=
    { method := ("POST"), url := u.getURL ("logout"), body := ReqBody.empty,
      headers := [(("Accept"), ("*/*"))] }
  match t with
  | TransportResult.failure msg =>
    { request := req, session := u, error := some (OpError.transportError msg) }
  | TransportResult.success resp =>
    if resp.statusCode ≠ 200 then
      { request := req, session := u, error := some (OpError.statusError resp.statusCode) }
    else
      { request := req, session := { u with jar := u.jar.setCookies u.baseURL resp.cookies },
        error := none }

/-- The command envelope of `AuthorizeGuestWithQos`: fixed command, MAC and
minutes, plus `down`, `up` and `bytes` exactly when the corresponding
parameter is positive. -/
def authorizeGuestArgs (mac : String) (min down up quota : Int) : List (String × String) :=
  [(("cmd"), ("authorize-guest")), (("mac"), mac), (("minutes"), toString min)]
    ++ (if down > 0 then [(("down"), toString down)] else [])
    ++ (if up > 0 then [(("up"), toString up)] else [])
    ++ (if quota > 0 then [(("bytes"), toString quota)] else [])

/-- Model of `AuthorizeGuestWithQos`: POST the command envelope to the
`stamgr` endpoint; on a non-200 status fail with the status code; on 200
store the response cookies against the base address. -/
def Unifi.AuthorizeGuestWithQos (u : Unifi) (mac : String) (min down up quota : Int)
    (t : TransportResult) : OpResult :=
  let req : HttpRequest :=
    { method := ("POST"), url := u.getURL ("stamgr"),
      body := ReqBody.jsonObj (authorizeGuestArgs mac min down up quota),
      headers := [(("Accept"), ("*/*")), (("Content-Type"), ("application/json"))] }
  match t with
  | TransportResult.failure msg =>
    { request := req, session := u, error := some (OpError.transportError msg) }
  | TransportResult.success resp =>
    if resp.statusCode ≠ 200 then
      { request := req, session := u, error := some (OpError.statusError resp.statusCode) }
    else
      { request := req, session := { u with jar := u.jar.setCookies u.baseURL resp.cookies },
        error := none }

/-- Model of `AuthorizeGuest`: delegate to `AuthorizeGuestWithQos` with the
three limits set to zero. -/
def Unifi.AuthorizeGuest (u : Unifi) (mac : String) (min : Int) (t : TransportResult) : OpResult :=
  u.AuthorizeGuestWithQos mac min 0 0 0 t

/-- A concrete base URL, as parsed from `https://10.0.1.100:8443`. -/
def demoBase : GoURL := { scheme := "https", host := ("10.0.1.100:8443"), path := "" }

/-- The session `New "" "https://10.0.1.100:8443" "admin" "admin"`
evaluates to. -/
def demoUnifi : Unifi :=
  { site := ("default"), userName := ("admin"), password := ("admin"), baseURL := demoBase,
    urls :=
      [(("login"), { scheme := "https", host := ("10.0.1.100:8443"), path := ("/api/login") }),
       (("logout"), { scheme := "https", host := ("10.0.1.100:8443"), path := ("/api/logout") }),
       (("stamgr"), { scheme := "https", host := ("10.0.1.100:8443"), path := ("/api/s/default/cmd/stamgr") })],
    jar := [] }

/-- A session used as a concrete counterexample input. -/
def cexUnifi : Unifi :=
  { site := ("default"), userName := ("u"), password := ("p"), baseURL := demoBase,
    urls := [], jar := [] }

/-- A 200 response carrying one session cookie. -/
def cexResponse : HttpResponse :=
  { statusCode := 200, cookies := [{ name := ("unifises"), value := ("abc") }], body := "" }

/-- A list is a prefix of itself followed by anything. -/
theorem isPre_append_self (p : List Char) : ∀ t : List Char, isPre p (p ++ t) = true := by
  induction p with
  | nil => intro t; rfl
  | cons a as ih => intro t; simp [isPre, ih]

/-- Replacement of a pattern starting with `$` leaves a `$`-free list
unchanged. -/
theorem replaceAllF_no_occ (pt rep : List Char) :
    ∀ (n : Nat) (s : List Char), s.length ≤ n → '$' ∉ s →
      replaceAllF ('$' :: pt) rep n s = s := by
  intro n
  induction n with
  | zero => intro s _ _; rfl
  | succ n ih =>
    intro s hlen hmem
    cases s with
    | nil => rfl
    | cons c rest =>
      have hc : ¬('$' = c) := fun h => hmem (by simp [h.symm])
      have hrest : '$' ∉ rest := fun h => hmem (List.mem_cons_of_mem _ h)
      simp only [replaceAllF, isPre, hc, List.isEmpty_cons]
      simp [ih rest (by simpa using Nat.le_of_succ_le_succ (by simpa using hlen)) hrest]

/-- Replacement of a pattern starting with `$` in a list with exactly one
occurrence of the pattern (flanked by `$`-free parts) substitutes exactly
that occurrence. -/
theorem replaceAllF_single (pt rep : List Char) :
    ∀ (pre suf : List Char) (n : Nat), (pre ++ ('$' :: pt) ++ suf).length ≤ n →
      '$' ∉ pre → '$' ∉ suf →
      replaceAllF ('$' :: pt) rep n (pre ++ ('$' :: pt) ++ suf) = pre ++ rep ++ suf := by
  intro pre
  induction pre with
  | nil =>
    intro suf n hlen _ hsuf
    cases n with
    | zero => simp at hlen
    | succ n =>
      simp only [List.nil_append]
      rw [show (('$' :: pt) ++ suf) = '$' :: (pt ++ suf) from rfl]
      simp only [replaceAllF, List.isEmpty_cons, Bool.not_false, Bool.true_and]
      rw [show ('$' :: (pt ++ suf)) = (('$' :: pt) ++ suf) from rfl]
      rw [isPre_append_self ('$' :: pt) suf]
      simp only [if_pos rfl, List.drop_left]
      rw [replaceAllF_no_occ pt rep n suf (by simp at hlen; omega) hsuf]
      simp
  | cons p ps ih =>
    intro suf n hlen hpre hsuf
    cases n with
    | zero => simp at hlen
    | succ n =>
      have hp : ¬('$' = p) := fun h => hpre (by simp [h.symm])
      have hps : '$' ∉ ps := fun h => hpre (List.mem_cons_of_mem _ h)
      rw [show ((p :: ps) ++ ('$' :: pt) ++ suf) = p :: (ps ++ ('$' :: pt) ++ suf) from rfl]
      simp only [replaceAllF, isPre, hp]
      simpa using ih suf n (by simp at hlen ⊢; omega) hps hsuf

/-- Substituting into a `$`-free template is the identity. -/
theorem goReplace_no_site (s t : String) (ht : '$' ∉ t.data) :
    goReplace t ("$site") s = t := by
  show (⟨replaceAllF ('$' :: ['s', 'i', 't', 'e']) s.data t.data.length t.data⟩ : String) = t
  rw [replaceAllF_no_occ ['s', 'i', 't', 'e'] s.data t.data.length t.data (Nat.le_refl _) ht]

/-- Substituting the site into the `stamgr` template splices the site
between the fixed prefix and suffix, for every site string. -/
theorem goReplace_site_template (s : String) :
    goReplace ("/api/s/$site/cmd/stamgr") ("$site") s = ("/api/s/") ++ s ++ ("/cmd/stamgr") := by
  show (⟨replaceAllF ('$' :: ['s', 'i', 't', 'e']) s.data 23
      ((['/', 'a', 'p', 'i', '/', 's', '/'] ++ ('$' :: ['s', 'i', 't', 'e']))
        ++ ['/', 'c', 'm', 'd', '/', 's', 't', 'a', 'm', 'g', 'r'])⟩ : String)
    = ("/api/s/") ++ s ++ ("/cmd/stamgr")
  rw [replaceAllF_single ['s', 'i', 't', 'e'] s.data ['/', 'a', 'p', 'i', '/', 's', '/']
    ['/', 'c', 'm', 'd', '/', 's', 't', 'a', 'm', 'g', 'r'] 23 (by decide) (by decide) (by decide)]
  rfl

/-- Claim C1: for every MAC string and integers `min`, `down`, `up`,
`quota`, the command envelope built by `AuthorizeGuestWithQos` always
binds `cmd` to `"authorize-guest"`, `mac` to the given MAC and `minutes`
to the decimal string of `min`, binds `down`, `up` and `bytes` to the
decimal strings of the corresponding parameters exactly when those are
strictly positive, and carries exactly those keys. -/
theorem authorizeGuestWithQos_envelope (mac : String) (min down up quota : Int) :
    goMapGet (authorizeGuestArgs mac min down up quota) ("cmd") = some ("authorize-guest") ∧
    goMapGet (authorizeGuestArgs mac min down up quota) ("mac") = some mac ∧
    goMapGet (authorizeGuestArgs mac min down up quota) ("minutes") = some (toString min) ∧
    goMapGet (authorizeGuestArgs mac min down up quota) ("down") =
      (if down > 0 then some (toString down) else none) ∧
    goMapGet (authorizeGuestArgs mac min down up quota) ("up") =
      (if up > 0 then some (toString up) else none) ∧
    goMapGet (authorizeGuestArgs mac min down up quota) ("bytes") =
      (if quota > 0 then some (toString quota) else none) ∧
    (authorizeGuestArgs mac min down up quota).map Prod.fst =
      ([("cmd"), ("mac"), ("minutes")]
        ++ (if down > 0 then [("down")] else [])
        ++ (if up > 0 then [("up")] else [])
        ++ (if quota > 0 then [("bytes")] else [])) := by
  by_cases hd : down > 0 <;> by_cases hu : up > 0 <;> by_cases hq : quota > 0 <;>
    simp [authorizeGuestArgs, goMapGet, hd, hu, hq]

/-- Claim C2: whenever the input decodes as a JSON object whose `meta`
member is an object whose `rc` member is a string, `ParseJSON` returns the
decoded map, no error, and a success flag that is true exactly when `rc`
equals `"ok"`. -/
theorem parseJSON_success_flag (b : String) (ms mms : List (String × Json)) (rc : String)
    (h1 : jsonDecodeToMap b = some ms)
    (h2 : goMapGet ms ("meta") = some (Json.obj mms))
    (h3 : goMapGet mms ("rc") = some (Json.str rc)) :
    ParseJSON b = (ms, decide (rc = ("ok")), none) := by
  simp [ParseJSON, h1, h2, h3]

/-- Witness for C2 at the two response bodies named by the spec: the `ok`
envelope yields flag `true`, the `error` envelope yields flag `false`,
both with no error. -/
theorem parseJSON_success_flag_witness :
    ParseJSON ("\x7b\"meta\":\x7b\"rc\":\"ok\"\x7d,\"data\":[]\x7d") =
      ([(("meta"), Json.obj [(("rc"), Json.str ("ok"))]), (("data"), Json.arr [])], true, none) ∧
    ParseJSON ("\x7b\"meta\":\x7b\"rc\":\"error\"\x7d,\"data\":[]\x7d") =
      ([(("meta"), Json.obj [(("rc"), Json.str ("error"))]), (("data"), Json.arr [])], false, none) := by
  constructor
  · exact parseJSON_success_flag ("\x7b\"meta\":\x7b\"rc\":\"ok\"\x7d,\"data\":[]\x7d")
      [(("meta"), Json.obj [(("rc"), Json.str ("ok"))]), (("data"), Json.arr [])]
      [(("rc"), Json.str ("ok"))] ("ok") rfl rfl rfl
  · exact parseJSON_success_flag ("\x7b\"meta\":\x7b\"rc\":\"error\"\x7d,\"data\":[]\x7d")
      [(("meta"), Json.obj [(("rc"), Json.str ("error"))]), (("data"), Json.arr [])]
      [(("rc"), Json.str ("error"))] ("error") rfl rfl rfl

/-- Claim C3: `ParseJSON` returns an error (with a false success flag)
exactly when decoding into a map fails (the `DecodeError` case) or the
decoded map violates the `meta`/`meta.rc` schema (the `SchemaError`
cases), and no other error kinds occur. -/
theorem parseJSON_error_classification (b : String) :
    ((ParseJSON b).2.2 ≠ none → (ParseJSON b).2.1 = false) ∧
    ((ParseJSON b).2.2 = some ParseJSONError.decodeError ↔ jsonDecodeToMap b = none) ∧
    ((∃ e, (ParseJSON b).2.2 = some e ∧ e.isSchemaError = true) ↔
      (∃ ms, jsonDecodeToMap b = some ms ∧ schemaBad ms = true)) ∧
    ((ParseJSON b).2.2 = none ∨ (ParseJSON b).2.2 = some ParseJSONError.decodeError ∨
      (∃ e, (ParseJSON b).2.2 = some e ∧ e.isSchemaError = true)) := by
  cases h1 : jsonDecodeToMap b with
  | none => simp [ParseJSON, h1, ParseJSONError.isSchemaError]
  | some ms =>
    cases h2 : goMapGet ms ("meta") with
    | none => simp [ParseJSON, schemaBad, h1, h2, ParseJSONError.isSchemaError]
    | some meta =>
      cases meta with
      | obj mms =>
        cases h3 : goMapGet mms ("rc") with
        | none => simp [ParseJSON, schemaBad, h1, h2, h3, ParseJSONError.isSchemaError]
        | some rcv =>
          cases rcv <;> simp [ParseJSON, schemaBad, h1, h2, h3, ParseJSONError.isSchemaError]
      | null => simp [ParseJSON, schemaBad, h1, h2, ParseJSONError.isSchemaError]
      | bool b2 => simp [ParseJSON, schemaBad, h1, h2, ParseJSONError.isSchemaError]
      | num n2 => simp [ParseJSON, schemaBad, h1, h2, ParseJSONError.isSchemaError]
      | str s2 => simp [ParseJSON, schemaBad, h1, h2, ParseJSONError.isSchemaError]
      | arr a2 => simp [ParseJSON, schemaBad, h1, h2, ParseJSONError.isSchemaError]

/-- Witness for C3 at the two inputs named by the spec: a JSON object
without `meta` yields a schema error, and a non-JSON input yields the
decode error with a false flag. -/
theorem parseJSON_error_classification_witness :
    (∃ e, (ParseJSON ("\x7b\"data\":[]\x7d")).2.2 = some e ∧ e.isSchemaError = true) ∧
    (ParseJSON ("not json")).2.2 = some ParseJSONError.decodeError ∧
    (ParseJSON ("not json")).2.1 = false := by
  refine ⟨?_, ?_, ?_⟩
  · exact (parseJSON_error_classification ("\x7b\"data\":[]\x7d")).2.2.1.mpr
      ⟨[(("data"), Json.arr [])], rfl, rfl⟩
  · exact (parseJSON_error_classification ("not json")).2.1.mpr rfl
  · exact (parseJSON_error_classification ("not json")).1
      (by simp [(parseJSON_error_classification ("not json")).2.1.mpr rfl])

/-- Claim C4: `AuthorizeGuest` behaves identically to
`AuthorizeGuestWithQos` with all three limits zero — the same request is
sent (its envelope carrying only `cmd`, `mac` and `minutes`) and the same
session state and result are produced for every transport outcome. -/
theorem authorizeGuest_delegates (u : Unifi) (mac : String) (min : Int) (t : TransportResult) :
    u.AuthorizeGuest mac min t = u.AuthorizeGuestWithQos mac min 0 0 0 t ∧
    (u.AuthorizeGuest mac min t).request.body =
      ReqBody.jsonObj [(("cmd"), ("authorize-guest")), (("mac"), mac), (("minutes"), toString min)] := by
  refine ⟨rfl, ?_⟩
  cases t with
  | failure msg => rfl
  | success resp =>
    simp only [Unifi.AuthorizeGuest, Unifi.AuthorizeGuestWithQos]
    split <;> rfl

/-- Claim C5: whenever the URL parser rejects the base address, `New`
returns an `AddressError` wrapping the parse failure and no session. -/
theorem new_malformed_address (site addr user pass : String) (g : GlobalState) (msg : String)
    (h : goURLParse addr = Except.error msg) :
    (New site addr user pass g).1 =
      Except.error (NewError.addressError (("Parse Unifi URL error: ") ++ msg)) := by
  simp [New, h]

/-- Witness for C5 at the malformed address `":"`, which the URL parser
rejects with `missing protocol scheme`. -/
theorem new_malformed_address_witness :
    (New ("default") (":") ("admin") ("admin") { debugMode := false }).1 =
      Except.error (NewError.addressError (("Parse Unifi URL error: ") ++ ("missing protocol scheme"))) :=
  new_malformed_address ("default") (":") ("admin") ("admin") { debugMode := false }
    ("missing protocol scheme") rfl

/-- Claim C6: every successful construction resolves the three endpoint
paths against the base address with the site identifier substituted
(defaulting to `"default"` for an empty site), and with an empty site the
resolved command endpoint path contains the literal segment `"default"`. -/
theorem new_resolves_endpoints (site addr user pass : String) (g g2 : GlobalState) (u : Unifi)
    (h : New site addr user pass g = (Except.ok u, g2)) :
    u.site = (if site = "" then defaultSite else site) ∧
    goMapGet u.urls ("login") = some (resolveReference u.baseURL (goURLParseD ("/api/login"))) ∧
    goMapGet u.urls ("logout") = some (resolveReference u.baseURL (goURLParseD ("/api/logout"))) ∧
    goMapGet u.urls ("stamgr") =
      some (resolveReference u.baseURL (goURLParseD (("/api/s/") ++ u.site ++ ("/cmd/stamgr")))) ∧
    (site = "" → (u.getURL ("stamgr")).path = ("/api/s/default/cmd/stamgr") ∧
      (pathSegments ((u.getURL ("stamgr")).path)).contains ("default") = true) := by
  cases hp : goURLParse addr with
  | error e => simp [New, hp] at h
  | ok base =>
    simp only [New, hp, Prod.mk.injEq, Except.ok.injEq] at h
    obtain ⟨hu, hg2⟩ := h
    subst hu
    have hs1 : goReplace ("/api/login") ("$site") (if site = "" then defaultSite else site) =
        ("/api/login") := goReplace_no_site _ _ (by decide)
    have hs2 : goReplace ("/api/logout") ("$site") (if site = "" then defaultSite else site) =
        ("/api/logout") := goReplace_no_site _ _ (by decide)
    have hs3 := goReplace_site_template (if site = "" then defaultSite else site)
    refine ⟨rfl, ?_, ?_, ?_, ?_⟩
    · simp [rawURLs, goMapGet, hs1]
    · simp [rawURLs, goMapGet, hs2]
    · simp [rawURLs, goMapGet, hs3]
    · intro h0
      subst h0
      simp only [if_pos rfl] at hs3 ⊢
      have hrepl : goReplace ("/api/s/$site/cmd/stamgr") ("$site") defaultSite =
          ("/api/s/default/cmd/stamgr") := rfl
      have hparse : goURLParseD ("/api/s/default/cmd/stamgr") =
          { scheme := "", host := "", path := ("/api/s/default/cmd/stamgr") } := rfl
      have hres : ∀ b : GoURL,
          resolveReference b { scheme := "", host := "", path := ("/api/s/default/cmd/stamgr") } =
            { scheme := b.scheme, host := b.host, path := ("/api/s/default/cmd/stamgr") } := by
        intro b
        simp [resolveReference, isPre]
      constructor
      · simp [Unifi.getURL, goMapGet, rawURLs, hrepl, hparse, hres]
      · simp [Unifi.getURL, goMapGet, rawURLs, hrepl, hparse, hres]
        decide

/-- Witness for C6: constructing with an empty site against
`https://10.0.1.100:8443` yields the command endpoint path
`/api/s/default/cmd/stamgr`, whose segments contain `default`. -/
theorem new_resolves_endpoints_witness :
    (demoUnifi.getURL ("stamgr")).path = ("/api/s/default/cmd/stamgr") ∧
    (pathSegments ((demoUnifi.getURL ("stamgr")).path)).contains ("default") = true :=
  (new_resolves_endpoints ("") ("https://10.0.1.100:8443") ("admin") ("admin")
    { debugMode := true } { debugMode := false } demoUnifi rfl).2.2.2.2 rfl

/-- Claim C7: no session operation changes the URL table computed by the
constructor; in particular the command endpoint is the same before and
after every operation, for every transport outcome. -/
theorem session_urls_immutable (u : Unifi) (t : TransportResult) (mac : String)
    (min down up quota : Int) :
    (u.Login t).session.urls = u.urls ∧
    (u.Logout t).session.urls = u.urls ∧
    (u.AuthorizeGuestWithQos mac min down up quota t).session.urls = u.urls ∧
    (u.AuthorizeGuest mac min t).session.urls = u.urls ∧
    (u.AuthorizeGuestWithQos mac min down up quota t).session.getURL ("stamgr") =
      u.getURL ("stamgr") := by
  cases t with
  | failure msg =>
    exact ⟨rfl, rfl, rfl, rfl, rfl⟩
  | success resp =>
    simp only [Unifi.Login, Unifi.Logout, Unifi.AuthorizeGuest, Unifi.AuthorizeGuestWithQos,
      Unifi.getURL]
    split <;> exact ⟨rfl, rfl, rfl, rfl, rfl⟩

/-- Claim C8: for a transport-level success, `Login` fails exactly on a
non-200 status, its error carries that status code, on 200 it stores the
response cookies against the base address, and on non-200 the cookie
store is unchanged. -/
theorem login_status_contract (u : Unifi) (resp : HttpResponse) :
    ((u.Login (TransportResult.success resp)).error = none ↔ resp.statusCode = 200) ∧
    (u.Login (TransportResult.success resp)).error =
      (if resp.statusCode = 200 then none else some (OpError.statusError resp.statusCode)) ∧
    (u.Login (TransportResult.success resp)).session.jar =
      (if resp.statusCode = 200 then u.jar.setCookies u.baseURL resp.cookies else u.jar) := by
  by_cases h : resp.statusCode = 200 <;> simp [Unifi.Login, h]

/-- Counterexample to claim C9: a command operation does mutate the cookie
store — on a 200 response with a session cookie, `AuthorizeGuestWithQos`
changes the session's jar. -/
theorem authorizeGuestWithQos_writes_jar_cex :
    (cexUnifi.AuthorizeGuestWithQos ("aa:bb:cc:dd:ee:ff") 5 0 0 0
      (TransportResult.success cexResponse)).session.jar ≠ cexUnifi.jar := by
  decide

/-- Amended claim C9: Login, Logout and both command operations all write
the cookie store in the same way — on an HTTP 200 response each stores the
response cookies against the base address, and otherwise (non-200 status
or transport failure) the store is unchanged. -/
theorem all_operations_write_jar (u : Unifi) (mac : String) (min down up quota : Int)
    (resp : HttpResponse) (msg : String) :
    (u.AuthorizeGuestWithQos mac min down up quota (TransportResult.success resp)).session.jar =
      (if resp.statusCode = 200 then u.jar.setCookies u.baseURL resp.cookies else u.jar) ∧
    (u.AuthorizeGuest mac min (TransportResult.success resp)).session.jar =
      (if resp.statusCode = 200 then u.jar.setCookies u.baseURL resp.cookies else u.jar) ∧
    (u.Login (TransportResult.success resp)).session.jar =
      (if resp.statusCode = 200 then u.jar.setCookies u.baseURL resp.cookies else u.jar) ∧
    (u.Logout (TransportResult.success resp)).session.jar =
      (if resp.statusCode = 200 then u.jar.setCookies u.baseURL resp.cookies else u.jar) ∧
    (u.AuthorizeGuestWithQos mac min down up quota (TransportResult.failure msg)).session.jar =
      u.jar := by
  by_cases h : resp.statusCode = 200 <;>
    simp [Unifi.AuthorizeGuest, Unifi.AuthorizeGuestWithQos, Unifi.Login, Unifi.Logout, h]

/-- Claim C10: every successful call to `New` resets the process-wide
debug flag — even after `SetDebugMode true`, once `New` returns a valid
session `IsDebugMode` reports `false`. -/
theorem new_resets_debug_mode (site addr user pass : String) (g0 : GlobalState)
    (h : ∃ v, (New site addr user pass (SetDebugMode true g0)).1 = Except.ok v) :
    IsDebugMode (New site addr user pass (SetDebugMode true g0)).2 = false := by
  obtain ⟨v, hv⟩ := h
  cases hp : goURLParse addr with
  | error e => simp [New, hp] at hv
  | ok base => simp [New, hp, IsDebugMode]

/-- Witness for C10: a concrete successful construction after
`SetDebugMode true` leaves the debug flag cleared. -/
theorem new_resets_debug_mode_witness :
    IsDebugMode (New ("") ("https://10.0.1.100:8443") ("admin") ("admin")
      (SetDebugMode true { debugMode := true })).2 = false :=
  new_resets_debug_mode ("") ("https://10.0.1.100:8443") ("admin") ("admin")
    { debugMode := true } ⟨demoUnifi, rfl⟩
